import Mathlib

/-!
Shallow embedding of the raw_cpuid crate (src/src/lib.rs) and proofs about it.

Machine integers are modelled as Nat with explicit truncation (% 2^8 for the
u8 casts); Rust u32 register words are Nats that callers keep below 2^32.
The cpuid machine instruction itself is opaque hardware behaviour; it is
modelled as an injected primitive, a pure function of the eax and ecx
register contents (the processor state is fixed), exactly as the spec
describes the Raw Query contract.
-/

/-- The four unsigned 32-bit words returned verbatim by one cpuid query
(struct CpuIdResult in the source). -/
structure CpuIdResult where
  eax : Nat
  ebx : Nat
  ecx : Nat
  edx : Nat
deriving DecidableEq, Repr

/-- Modelled from the spec: the opaque CPU-identification primitive,
"query(leaf, subleaf) -> four raw 32-bit registers", a pure function of the
eax (leaf) and ecx (subleaf) register contents for a fixed processor state.
The asm block in the source invokes this hardware primitive. -/
def CpuIdPrim : Type := Nat → Nat → CpuIdResult

/-- fn cpuid2(eax, ecx): loads eax and ecx, executes cpuid, and returns the
four output registers verbatim in a CpuIdResult. Total: no error path. -/
def cpuid2 (prim : CpuIdPrim) (eax ecx : Nat) : CpuIdResult :=
  prim eax ecx

/-- fn cpuid1(eax): loads only eax and executes cpuid; the ecx register
keeps its ambient content ecx0, which the instruction still reads. Total:
no error path. -/
def cpuid1 (prim : CpuIdPrim) (ecx0 : Nat) (eax : Nat) : CpuIdResult :=
  prim eax ecx0

/-- enum CpuIdLeaf: the closed enumeration of the 14 known leaf kinds. -/
inductive CpuIdLeaf where
  | VendorInformation
  | FeatureInformation
  | CacheInformation
  | ProcessorSerial
  | CacheParameters
  | MonitorMwait
  | ThermalPowerManagement
  | StructuredExtendedFeature
  | DirectCacheAccess
  | PerformanceMonitoring
  | ExtendedTopology
  | ProcessorExtendedState
  | QualityofService
  | ExtendedFunction
deriving DecidableEq, Repr

/-- struct LeafData: one static catalog entry, a tuple struct in the
source holding (category, label, selector). -/
structure LeafData where
  leaf : CpuIdLeaf
  label : String
  selector : Nat
deriving DecidableEq, Repr

/-- const LEAF_INFORMATION: the fixed read-only 14-entry leaf catalog. -/
def LEAF_INFORMATION : List LeafData := [
  ⟨CpuIdLeaf.VendorInformation, "GenuineIntel", 0x0⟩,
  ⟨CpuIdLeaf.FeatureInformation, "Version/Feature Information", 0x1⟩,
  ⟨CpuIdLeaf.CacheInformation, "Cache and TLB Information", 0x2⟩,
  ⟨CpuIdLeaf.ProcessorSerial, "Processor serial number", 0x3⟩,
  ⟨CpuIdLeaf.CacheParameters, "Deterministic Cache Parameters", 0x4⟩,
  ⟨CpuIdLeaf.MonitorMwait, "MONITOR/MWAIT", 0x5⟩,
  ⟨CpuIdLeaf.ThermalPowerManagement, "Thermal and Power Management", 0x6⟩,
  ⟨CpuIdLeaf.StructuredExtendedFeature, "Structured Extended Feature Flags", 0x7⟩,
  ⟨CpuIdLeaf.DirectCacheAccess, "Direct Cache Access Information", 0x9⟩,
  ⟨CpuIdLeaf.PerformanceMonitoring, "Architectural Performance Monitoring", 0xA⟩,
  ⟨CpuIdLeaf.ExtendedTopology, "Extended Topology Enumeration", 0xB⟩,
  ⟨CpuIdLeaf.ProcessorExtendedState, "Processor Extended State Enumeration", 0xD⟩,
  ⟨CpuIdLeaf.QualityofService, "Quality of Service", 0xF⟩,
  ⟨CpuIdLeaf.ExtendedFunction, "Extended Function CPUID Information", 0x80000000⟩]

/-- pub struct CpuId: the zero-sized handle type. -/
structure CpuId where

/-- pub struct CpuIdVendorInfo: retains only words ebx, ecx, edx of the
vendor leaf result (word eax is discarded at construction). -/
structure CpuIdVendorInfo where
  ebx : Nat
  ecx : Nat
  edx : Nat
deriving DecidableEq, Repr

/-- pub struct CpuIdFeatureInfo: retains all four words of the feature
leaf result. -/
structure CpuIdFeatureInfo where
  eax : Nat
  ebx : Nat
  ecx : Nat
  edx : Nat
deriving DecidableEq, Repr

/-- CpuId::get_vendor_information: raw query via cpuid!(0), keeping words
ebx, ecx, edx of the result. -/
def CpuId.get_vendor_information (prim : CpuIdPrim) (ecx0 : Nat)
    (_ : CpuId) : CpuIdVendorInfo :=
  let res := cpuid1 prim ecx0 0
  ⟨res.ebx, res.ecx, res.edx⟩

/-- CpuId::get_feature_information: raw query via cpuid!(1), keeping all
four words of the result. -/
def CpuId.get_feature_information (prim : CpuIdPrim) (ecx0 : Nat)
    (_ : CpuId) : CpuIdFeatureInfo :=
  let res := cpuid1 prim ecx0 1
  ⟨res.eax, res.ebx, res.ecx, res.edx⟩

/-- fn as_bytes(v: &u32) -> &[u8]: the four bytes of a 32-bit word in
memory order, which on x86 is least-significant byte first. -/
def as_bytes (v : Nat) : List Nat :=
  [v % 2^8, (v >>> 8) % 2^8, (v >>> 16) % 2^8, (v >>> 24) % 2^8]

/-- impl fmt::Display for CpuIdVendorInfo: writes the bytes of ebx, then
edx, then ecx, each interpreted as characters. -/
def CpuIdVendorInfo.display (v : CpuIdVendorInfo) : String :=
  String.mk ((as_bytes v.ebx).map Char.ofNat) ++
  String.mk ((as_bytes v.edx).map Char.ofNat) ++
  String.mk ((as_bytes v.ecx).map Char.ofNat)

/-- CpuIdFeatureInfo::get_extended_family_id: ((eax >> 20) & 0xff) as u8. -/
def CpuIdFeatureInfo.get_extended_family_id (f : CpuIdFeatureInfo) : Nat :=
  ((f.eax >>> 20) &&& 0xFF) % 2^8

/-- CpuIdFeatureInfo::get_extended_model_id: ((eax >> 16) & 0b1111) as u8. -/
def CpuIdFeatureInfo.get_extended_model_id (f : CpuIdFeatureInfo) : Nat :=
  ((f.eax >>> 16) &&& 0xF) % 2^8

/-- CpuIdFeatureInfo::get_family_id: ((eax >> 8) & 0b1111) as u8. -/
def CpuIdFeatureInfo.get_family_id (f : CpuIdFeatureInfo) : Nat :=
  ((f.eax >>> 8) &&& 0xF) % 2^8

/-- CpuIdFeatureInfo::get_model: ((eax >> 4) & 0b1111) as u8. -/
def CpuIdFeatureInfo.get_model (f : CpuIdFeatureInfo) : Nat :=
  ((f.eax >>> 4) &&& 0xF) % 2^8

/-- CpuIdFeatureInfo::get_stepping_id: (eax & 0b1111) as u8. -/
def CpuIdFeatureInfo.get_stepping_id (f : CpuIdFeatureInfo) : Nat :=
  (f.eax &&& 0xF) % 2^8

/-- CpuIdFeatureInfo::get_brand_index: ebx as u8. -/
def CpuIdFeatureInfo.get_brand_index (f : CpuIdFeatureInfo) : Nat :=
  f.ebx % 2^8

/-- CpuIdFeatureInfo::get_cflush_cache_line_size: (ebx >> 8) as u8. -/
def CpuIdFeatureInfo.get_cflush_cache_line_size (f : CpuIdFeatureInfo) : Nat :=
  (f.ebx >>> 8) % 2^8

/-- CpuIdFeatureInfo::get_local_apic_id: (ebx >> 24) as u8. -/
def CpuIdFeatureInfo.get_local_apic_id (f : CpuIdFeatureInfo) : Nat :=
  (f.ebx >>> 24) % 2^8

/-- The five eax bitfields shifted back to their original positions and
OR-ed together (the re-encoding considered by the spec for word eax). -/
def reconstruct_eax (a : Nat) : Nat :=
  let f : CpuIdFeatureInfo := ⟨a, 0, 0, 0⟩
  (f.get_extended_family_id <<< 20) ||| (f.get_extended_model_id <<< 16) |||
    (f.get_family_id <<< 8) ||| (f.get_model <<< 4) ||| f.get_stepping_id

/-- The three ebx byte slices shifted back to their original positions,
OR-ed together with the original bits 23:16 of ebx. -/
def reconstruct_ebx (b : Nat) : Nat :=
  let f : CpuIdFeatureInfo := ⟨0, b, 0, 0⟩
  f.get_brand_index ||| (f.get_cflush_cache_line_size <<< 8) |||
    (f.get_local_apic_id <<< 24) ||| (b &&& 0xFF0000)

/-- Calling get_vendor_information twice in immediate succession on the
same fixed processor state. -/
def query_vendor_twice (prim : CpuIdPrim) (ecx0 : Nat) (c : CpuId) :
    CpuIdVendorInfo × CpuIdVendorInfo :=
  (CpuId.get_vendor_information prim ecx0 c,
   CpuId.get_vendor_information prim ecx0 c)

/-- Calling get_feature_information twice in immediate succession on the
same fixed processor state. -/
def query_feature_twice (prim : CpuIdPrim) (ecx0 : Nat) (c : CpuId) :
    CpuIdFeatureInfo × CpuIdFeatureInfo :=
  (CpuId.get_feature_information prim ecx0 c,
   CpuId.get_feature_information prim ecx0 c)

/-! ### Bitwise helper lemmas -/

/-- OR with a shifted value is addition when the low part fits below the
shift amount. -/
theorem mul_pow_lor (x y s : Nat) (h : y < 2^s) : x * 2^s ||| y = x * 2^s + y := by
  rw [Nat.mul_comm x (2^s)]
  exact (Nat.mul_add_lt_is_or h x).symm

/-- Commuted form of mul_pow_lor. -/
theorem lor_mul_pow (x y s : Nat) (h : y < 2^s) : y ||| x * 2^s = x * 2^s + y := by
  rw [Nat.lor_comm]
  exact mul_pow_lor x y s h

/-- Masking with 0xFF keeps the low eight bits. -/
theorem and_255 (x : Nat) : x &&& 0xFF = x % 2^8 := by
  rw [show (0xFF : Nat) = 2^8 - 1 from by norm_num, Nat.and_pow_two_sub_one_eq_mod]

/-- Masking with 0xF keeps the low four bits. -/
theorem and_15 (x : Nat) : x &&& 0xF = x % 2^4 := by
  rw [show (0xF : Nat) = 2^4 - 1 from by norm_num, Nat.and_pow_two_sub_one_eq_mod]

/-- Masking with 0xFFF keeps the low twelve bits. -/
theorem and_4095 (x : Nat) : x &&& 0xFFF = x % 2^12 := by
  rw [show (0xFFF : Nat) = 2^12 - 1 from by norm_num, Nat.and_pow_two_sub_one_eq_mod]

/-- AND against a shifted mask equals shifting, masking, and shifting back. -/
theorem and_shiftLeft_mask (b m s : Nat) : b &&& (m <<< s) = ((b >>> s) &&& m) <<< s := by
  apply Nat.eq_of_testBit_eq
  intro i
  simp only [Nat.testBit_and, Nat.testBit_shiftLeft, Nat.testBit_shiftRight]
  by_cases hs : s ≤ i
  · simp [hs, Nat.add_sub_cancel' hs]
  · simp [hs]

/-- A value below the shift amount is disjoint from any value shifted up
past it. -/
theorem and_shift_disjoint (x y s : Nat) (h : x < 2^s) : x &&& (y <<< s) = 0 := by
  rw [and_shiftLeft_mask, Nat.shiftRight_eq_div_pow, Nat.div_eq_of_lt h,
    Nat.zero_and, Nat.zero_shiftLeft]

/-- The eax re-encoding in closed arithmetic form. -/
theorem reconstruct_eax_eq_sum (a : Nat) : reconstruct_eax a =
    a / 2^20 % 2^8 * 2^20 +
      (a / 2^16 % 2^4 * 2^16 + (a / 2^8 % 2^4 * 2^8 + (a / 2^4 % 2^4 * 2^4 + a % 2^4))) := by
  simp only [reconstruct_eax, CpuIdFeatureInfo.get_extended_family_id,
    CpuIdFeatureInfo.get_extended_model_id, CpuIdFeatureInfo.get_family_id,
    CpuIdFeatureInfo.get_model, CpuIdFeatureInfo.get_stepping_id,
    and_255, and_15, Nat.shiftRight_eq_div_pow, Nat.shiftLeft_eq, Nat.or_assoc]
  rw [show a / 2^20 % 2^8 % 2^8 = a / 2^20 % 2^8 from by omega,
    show a / 2^16 % 2^4 % 2^8 = a / 2^16 % 2^4 from by omega,
    show a / 2^8 % 2^4 % 2^8 = a / 2^8 % 2^4 from by omega,
    show a / 2^4 % 2^4 % 2^8 = a / 2^4 % 2^4 from by omega,
    show a % 2^4 % 2^8 = a % 2^4 from by omega]
  rw [mul_pow_lor (a / 2^4 % 2^4) (a % 2^4) 4 (by omega)]
  rw [mul_pow_lor (a / 2^8 % 2^4) (a / 2^4 % 2^4 * 2^4 + a % 2^4) 8 (by omega)]
  rw [mul_pow_lor (a / 2^16 % 2^4)
    (a / 2^8 % 2^4 * 2^8 + (a / 2^4 % 2^4 * 2^4 + a % 2^4)) 16 (by omega)]
  rw [mul_pow_lor (a / 2^20 % 2^8)
    (a / 2^16 % 2^4 * 2^16 + (a / 2^8 % 2^4 * 2^8 + (a / 2^4 % 2^4 * 2^4 + a % 2^4))) 20
    (by omega)]

/-- The mask of the bit positions actually covered by the five eax fields
(bits 27:16 and 11:0), in closed arithmetic form. -/
theorem and_0FFF0FFF_eq (a : Nat) :
    a &&& 0x0FFF0FFF = a / 2^16 % 2^12 * 2^16 + a % 2^12 := by
  rw [show (0x0FFF0FFF : Nat) = (0xFFF <<< 16) ||| 0xFFF from by decide,
    Nat.and_or_distrib_left, and_shiftLeft_mask, and_4095, and_4095,
    Nat.shiftRight_eq_div_pow, Nat.shiftLeft_eq]
  rw [mul_pow_lor (a / 2^16 % 2^12) (a % 2^12) 16 (by omega)]

/-! ### Claim theorems -/

/-- Claim C1: each of the eight FeatureInfo accessors is the pure function
(value >> shift) & mask truncated to 8 bits with the exact shift/mask pairs
of the spec table (extendedFamilyId a,20,0xFF; extendedModelId a,16,0x0F;
familyId a,8,0x0F; model a,4,0x0F; steppingId a,0,0x0F; brandIndex b,0,0xFF;
cflushLineSize b,8,0xFF; localApicId b,24,0xFF); and for a = 0x000306A9,
familyId is 6, model is 0xA, steppingId is 9. -/
theorem C1_feature_accessors :
    (∀ f : CpuIdFeatureInfo,
      f.get_extended_family_id = (f.eax >>> 20) &&& 0xFF ∧
      f.get_extended_model_id = (f.eax >>> 16) &&& 0xF ∧
      f.get_family_id = (f.eax >>> 8) &&& 0xF ∧
      f.get_model = (f.eax >>> 4) &&& 0xF ∧
      f.get_stepping_id = (f.eax >>> 0) &&& 0xF ∧
      f.get_brand_index = (f.ebx >>> 0) &&& 0xFF ∧
      f.get_cflush_cache_line_size = (f.ebx >>> 8) &&& 0xFF ∧
      f.get_local_apic_id = (f.ebx >>> 24) &&& 0xFF) ∧
    (CpuIdFeatureInfo.mk 0x000306A9 0 0 0).get_family_id = 6 ∧
    (CpuIdFeatureInfo.mk 0x000306A9 0 0 0).get_model = 0xA ∧
    (CpuIdFeatureInfo.mk 0x000306A9 0 0 0).get_stepping_id = 9 := by
  refine ⟨fun f => ?_, by decide, by decide, by decide⟩
  simp only [CpuIdFeatureInfo.get_extended_family_id,
    CpuIdFeatureInfo.get_extended_model_id, CpuIdFeatureInfo.get_family_id,
    CpuIdFeatureInfo.get_model, CpuIdFeatureInfo.get_stepping_id,
    CpuIdFeatureInfo.get_brand_index, CpuIdFeatureInfo.get_cflush_cache_line_size,
    CpuIdFeatureInfo.get_local_apic_id, and_255, and_15,
    Nat.shiftRight_zero, Nat.shiftRight_eq_div_pow]
  refine ⟨?_, ?_, ?_, ?_, ?_, ?_, ?_, ?_⟩ <;> first | trivial | omega

/-- Claim C2: rendering a VendorInfo concatenates the four bytes of word b,
then word d, then word c, least-significant byte first, yielding exactly 12
characters; the GenuineIntel and AuthenticAMD triples render to those exact
strings. -/
theorem C2_vendor_display :
    (∀ v : CpuIdVendorInfo, (v.display).length = 12) ∧
    CpuIdVendorInfo.display ⟨0x756e6547, 0x6c65746e, 0x49656e69⟩ = "GenuineIntel" ∧
    CpuIdVendorInfo.display ⟨0x68747541, 0x444d4163, 0x69746e65⟩ = "AuthenticAMD" :=
  ⟨fun _ => rfl, by decide, by decide⟩

/-- Claim C3 counterexample: at a = 0x0000F000 the five fields OR-ed back
into position give 0, which is not the lower 28 bits of a (bits 15:12 are
covered by no field), refuting the claim as stated. -/
theorem C3_counterexample :
    ¬ (reconstruct_eax 0x0000F000 = 0x0000F000 % 2^28) := by decide

/-- Claim C3 (amended): the five fields OR-ed back into position
reconstruct exactly the bits of a that the fields cover, namely bits 27:16
and 11:0 (mask 0x0FFF0FFF) — not the full lower 28 bits, since bits 15:12
are covered by no field; and extraction after encoding is the identity on
in-range fields. -/
theorem C3_field_reassembly :
    (∀ a : Nat, reconstruct_eax a = a &&& 0x0FFF0FFF) ∧
    (∀ ef em fam mo st : Nat,
      ef < 2^8 → em < 2^4 → fam < 2^4 → mo < 2^4 → st < 2^4 →
      (CpuIdFeatureInfo.mk
          ((ef <<< 20) ||| (em <<< 16) ||| (fam <<< 8) ||| (mo <<< 4) ||| st)
          0 0 0).get_extended_family_id = ef ∧
      (CpuIdFeatureInfo.mk
          ((ef <<< 20) ||| (em <<< 16) ||| (fam <<< 8) ||| (mo <<< 4) ||| st)
          0 0 0).get_extended_model_id = em ∧
      (CpuIdFeatureInfo.mk
          ((ef <<< 20) ||| (em <<< 16) ||| (fam <<< 8) ||| (mo <<< 4) ||| st)
          0 0 0).get_family_id = fam ∧
      (CpuIdFeatureInfo.mk
          ((ef <<< 20) ||| (em <<< 16) ||| (fam <<< 8) ||| (mo <<< 4) ||| st)
          0 0 0).get_model = mo ∧
      (CpuIdFeatureInfo.mk
          ((ef <<< 20) ||| (em <<< 16) ||| (fam <<< 8) ||| (mo <<< 4) ||| st)
          0 0 0).get_stepping_id = st) := by
  constructor
  · intro a
    rw [reconstruct_eax_eq_sum, and_0FFF0FFF_eq]
    omega
  · intro ef em fam mo st h1 h2 h3 h4 h5
    have henc : (ef <<< 20) ||| (em <<< 16) ||| (fam <<< 8) ||| (mo <<< 4) ||| st =
        ef * 2^20 + (em * 2^16 + (fam * 2^8 + (mo * 2^4 + st))) := by
      simp only [Nat.or_assoc, Nat.shiftLeft_eq]
      rw [mul_pow_lor mo st 4 h5]
      rw [mul_pow_lor fam (mo * 2^4 + st) 8 (by omega)]
      rw [mul_pow_lor em (fam * 2^8 + (mo * 2^4 + st)) 16 (by omega)]
      rw [mul_pow_lor ef (em * 2^16 + (fam * 2^8 + (mo * 2^4 + st))) 20 (by omega)]
    rw [henc]
    refine ⟨?_, ?_, ?_, ?_, ?_⟩ <;>
      simp only [CpuIdFeatureInfo.get_extended_family_id,
        CpuIdFeatureInfo.get_extended_model_id, CpuIdFeatureInfo.get_family_id,
        CpuIdFeatureInfo.get_model, CpuIdFeatureInfo.get_stepping_id,
        and_255, and_15, Nat.shiftRight_eq_div_pow] <;> omega

/-- Witness for C3_field_reassembly at concrete inputs: a = 0x000306A9 for
the reassembly equation and the in-range field tuple (0, 3, 6, 0xA, 9) for
the decode-after-encode identity. -/
theorem C3_field_reassembly_witness :
    reconstruct_eax 0x000306A9 = 0x000306A9 &&& 0x0FFF0FFF ∧
    ((CpuIdFeatureInfo.mk
        ((0x0 <<< 20) ||| (0x3 <<< 16) ||| (0x6 <<< 8) ||| (0xA <<< 4) ||| 0x9)
        0 0 0).get_extended_family_id = 0x0 ∧
     (CpuIdFeatureInfo.mk
        ((0x0 <<< 20) ||| (0x3 <<< 16) ||| (0x6 <<< 8) ||| (0xA <<< 4) ||| 0x9)
        0 0 0).get_extended_model_id = 0x3 ∧
     (CpuIdFeatureInfo.mk
        ((0x0 <<< 20) ||| (0x3 <<< 16) ||| (0x6 <<< 8) ||| (0xA <<< 4) ||| 0x9)
        0 0 0).get_family_id = 0x6 ∧
     (CpuIdFeatureInfo.mk
        ((0x0 <<< 20) ||| (0x3 <<< 16) ||| (0x6 <<< 8) ||| (0xA <<< 4) ||| 0x9)
        0 0 0).get_model = 0xA ∧
     (CpuIdFeatureInfo.mk
        ((0x0 <<< 20) ||| (0x3 <<< 16) ||| (0x6 <<< 8) ||| (0xA <<< 4) ||| 0x9)
        0 0 0).get_stepping_id = 0x9) :=
  ⟨C3_field_reassembly.1 0x000306A9,
   C3_field_reassembly.2 0x0 0x3 0x6 0xA 0x9 (by decide) (by decide) (by decide)
     (by decide) (by decide)⟩

/-- Claim C4: brandIndex, cflushLineSize, and localApicId are mutually
non-overlapping 8-bit slices of word b (bits 7:0, 15:8, 31:24), and for
every 32-bit b, OR-ing the three slices shifted back to their positions
together with the original bits 23:16 reconstructs b exactly. -/
theorem C4_ebx_slices :
    (∀ f : CpuIdFeatureInfo,
      f.get_brand_index &&& (f.get_cflush_cache_line_size <<< 8) = 0 ∧
      f.get_brand_index &&& (f.get_local_apic_id <<< 24) = 0 ∧
      (f.get_cflush_cache_line_size <<< 8) &&& (f.get_local_apic_id <<< 24) = 0) ∧
    (∀ b : Nat, b < 2^32 → reconstruct_ebx b = b) := by
  constructor
  · intro f
    refine ⟨?_, ?_, ?_⟩
    · exact and_shift_disjoint _ _ 8
        (by simp only [CpuIdFeatureInfo.get_brand_index]; omega)
    · exact and_shift_disjoint _ _ 24
        (by simp only [CpuIdFeatureInfo.get_brand_index]; omega)
    · rw [and_shiftLeft_mask (f.get_cflush_cache_line_size <<< 8)
        (f.get_local_apic_id) 24]
      simp only [CpuIdFeatureInfo.get_cflush_cache_line_size, Nat.shiftLeft_eq,
        Nat.shiftRight_eq_div_pow]
      rw [show f.ebx / 2^8 % 2^8 * 2^8 / 2^24 = 0 from by omega, Nat.zero_and,
        Nat.zero_mul]
  · intro b hb
    simp only [reconstruct_ebx, CpuIdFeatureInfo.get_brand_index,
      CpuIdFeatureInfo.get_cflush_cache_line_size, CpuIdFeatureInfo.get_local_apic_id]
    rw [show (0xFF0000 : Nat) = 0xFF <<< 16 from by decide, and_shiftLeft_mask, and_255]
    simp only [Nat.shiftRight_eq_div_pow, Nat.shiftLeft_eq]
    rw [lor_mul_pow (b / 2^8 % 2^8) (b % 2^8) 8 (by omega)]
    rw [Nat.or_assoc]
    rw [mul_pow_lor (b / 2^24 % 2^8) (b / 2^16 % 2^8 * 2^16) 24 (by omega)]
    rw [show b / 2^24 % 2^8 * 2^24 + b / 2^16 % 2^8 * 2^16 =
      (b / 2^24 % 2^8 * 2^8 + b / 2^16 % 2^8) * 2^16 from by ring]
    rw [lor_mul_pow (b / 2^24 % 2^8 * 2^8 + b / 2^16 % 2^8)
      (b / 2^8 % 2^8 * 2^8 + b % 2^8) 16 (by omega)]
    omega

/-- Witness for C4_ebx_slices: the reconstruction equation applied at the
concrete 32-bit word 0x12345678. -/
theorem C4_ebx_slices_witness :
    (0x12345678 : Nat) < 2^32 ∧ reconstruct_ebx 0x12345678 = 0x12345678 :=
  ⟨by decide, C4_ebx_slices.2 0x12345678 (by decide)⟩

/-- Claim C5: getVendorInformation performs the raw query with selector 0x0
and keeps only words b, c, d of the result (word a is discarded, since
CpuIdVendorInfo has no eax field), while getFeatureInformation performs the
raw query with selector 0x1 and keeps all four words unchanged. -/
theorem C5_typed_queries (prim : CpuIdPrim) (ecx0 : Nat) (c : CpuId) :
    CpuId.get_vendor_information prim ecx0 c =
      ⟨(prim 0 ecx0).ebx, (prim 0 ecx0).ecx, (prim 0 ecx0).edx⟩ ∧
    CpuId.get_feature_information prim ecx0 c =
      ⟨(prim 1 ecx0).eax, (prim 1 ecx0).ebx, (prim 1 ecx0).ecx, (prim 1 ecx0).edx⟩ :=
  ⟨rfl, rfl⟩

/-- Claim C6: the static leaf catalog is a fixed sequence of exactly 14
entries with exactly one descriptor per category, selectors listed in
strictly ascending order, and the ExtendedFunction entry last with
selector 0x80000000. -/
theorem C6_catalog_invariants :
    LEAF_INFORMATION.length = 14 ∧
    List.Pairwise (fun x y => x.selector < y.selector) LEAF_INFORMATION ∧
    (∀ cat : CpuIdLeaf,
      (LEAF_INFORMATION.filter (fun d => d.leaf == cat)).length = 1) ∧
    LEAF_INFORMATION.getLast? = some ⟨CpuIdLeaf.ExtendedFunction,
      "Extended Function CPUID Information", 0x80000000⟩ := by
  refine ⟨by decide, by decide, fun cat => ?_, by decide⟩
  cases cat <;> decide

/-- Claim C7: with the processor state fixed (the raw query a pure function
of leaf and subleaf), two successive calls of getVendorInformation return
identical values, and likewise for getFeatureInformation. -/
theorem C7_successive_calls_identical (prim : CpuIdPrim) (ecx0 : Nat) (c : CpuId) :
    (query_vendor_twice prim ecx0 c).1 = (query_vendor_twice prim ecx0 c).2 ∧
    (query_feature_twice prim ecx0 c).1 = (query_feature_twice prim ecx0 c).2 :=
  ⟨rfl, rfl⟩

/-- Claim C8: for every leaf value, including unrecognized selectors, the
one-argument and two-argument raw queries are total functions returning a
CpuIdResult (no error, exception, or other failure path exists in their
types), and the four words are passed through exactly as the primitive
produced them. -/
theorem C8_raw_query_total (prim : CpuIdPrim) (ecx0 leaf subleaf : Nat) :
    cpuid1 prim ecx0 leaf = prim leaf ecx0 ∧
    cpuid2 prim leaf subleaf = prim leaf subleaf :=
  ⟨rfl, rfl⟩

/-- Claim C9: within the standard range the catalog holds no entry for
selectors 0x8, 0xC, or 0xE; the selectors present are exactly 0x0 through
0x7, 0x9, 0xA, 0xB, 0xD, 0xF, plus 0x80000000, so coverage of the standard
range is not contiguous. -/
theorem C9_selector_gaps :
    LEAF_INFORMATION.map (fun d => d.selector) =
      [0x0, 0x1, 0x2, 0x3, 0x4, 0x5, 0x6, 0x7, 0x9, 0xA, 0xB, 0xD, 0xF, 0x80000000] ∧
    ¬ (0x8 ∈ LEAF_INFORMATION.map (fun d => d.selector)) ∧
    ¬ (0xC ∈ LEAF_INFORMATION.map (fun d => d.selector)) ∧
    ¬ (0xE ∈ LEAF_INFORMATION.map (fun d => d.selector)) := by
  refine ⟨by decide, by decide, by decide, by decide⟩

/-- Claim C10: the catalog label paired with the VendorInformation category
(selector 0x0) is the literal string "GenuineIntel" — the vendor
identification string itself, as also produced by rendering the GenuineIntel
register triple — rather than a descriptive name. -/
theorem C10_vendor_label :
    LEAF_INFORMATION.head? = some ⟨CpuIdLeaf.VendorInformation, "GenuineIntel", 0x0⟩ ∧
    (LEAF_INFORMATION.filter (fun d => d.leaf == CpuIdLeaf.VendorInformation)).map
      (fun d => d.label) = ["GenuineIntel"] ∧
    CpuIdVendorInfo.display ⟨0x756e6547, 0x6c65746e, 0x49656e69⟩ = "GenuineIntel" :=
  ⟨by decide, by decide, by decide⟩
